import Mathlib

/-
Verification of the n8n-cli request core (src/n8n-client.ts): configuration
loading, the HTTP request primitive with retry and backoff, scoped-path
fallback for workflow operations, pagination, run-workflow identifier
extraction, and the friendly error classifier.  Pure JavaScript functions are
embedded as Lean functions; network transport is modelled as an explicit
oracle argument; JSON.parse is modelled by carrying the parse outcome
alongside the raw text of a body.
-/

namespace N8nCli

/-! ## String primitives

JavaScript `String.prototype.includes`, `trim`, `startsWith` re-implemented
on the character list of a `String`, so that all definitions reduce inside
the kernel. -/

/-- Character-list version of startsWith: `startsHere p l` is true when `p`
is an initial segment of `l`. -/
def startsHere : List Char → List Char → Bool
  | [], _ => true
  | _ :: _, [] => false
  | a :: as, b :: bs => a == b && startsHere as bs

/-- Substring occurrence test on character lists. -/
def hasSub (p : List Char) : List Char → Bool
  | [] => startsHere p []
  | c :: rest => startsHere p (c :: rest) || hasSub p rest

/-- JavaScript `s.includes(pat)`. -/
def strHas (s pat : String) : Bool := hasSub pat.data s.data

/-- JavaScript `s.startsWith(pat)`. -/
def strStarts (s pat : String) : Bool := startsHere pat.data s.data

/-- Whitespace recognised by JavaScript `trim` (the forms relevant here). -/
def isWsp (c : Char) : Bool := c == ' ' || c == '\t' || c == '\n' || c == '\r'

/-- JavaScript `s.trim()`. -/
def strTrim (s : String) : String :=
  ⟨((s.data.dropWhile isWsp).reverse.dropWhile isWsp).reverse⟩

/-- JavaScript truthiness of a `string | undefined` value: defined and
non-empty. -/
def truthy : Option String → Bool
  | none => false
  | some s => s != ""

/-! ## JSON values

A minimal JSON value model.  `JSON.parse` itself is not re-implemented: a
response body is carried together with its parse outcome (`Option JVal`,
`none` meaning the text does not parse). -/

inductive JVal where
  | null : JVal
  | str : String → JVal
  | num : Int → JVal
  | bool : Bool → JVal
  | arr : List JVal → JVal
  | obj : List (String × JVal) → JVal
deriving Repr

/-- Raw field access `j[k]` on an object (first binding wins); `none` for
non-objects or a missing key, like `?.` access returning `undefined`. -/
def jField : JVal → String → Option JVal
  | JVal.obj fields, k => go fields k
  | _, _ => none
where
  go : List (String × JVal) → String → Option JVal
    | [], _ => none
    | (k', v) :: rest, k => if k' == k then some v else go rest k

/-- Field access as used to the left of `??` or `?.`: a JSON `null` value
behaves like a missing field (both `??` and `?.` skip `null`). -/
def jGet (j : JVal) (k : String) : Option JVal :=
  match jField j k with
  | some JVal.null => none
  | r => r

/-- Field access restricted to string values.  Identifier and cursor fields
are modelled as strings; non-string values in those positions are outside
the model and behave as absent. -/
def jGetStr (j : JVal) (k : String) : Option String :=
  match jGet j k with
  | some (JVal.str s) => some s
  | _ => none

/-- JavaScript template stringification of a JSON value (template interpolation), close
enough for the message interpolation in `parseApiError`. -/
def jShow : JVal → String
  | JVal.null => "null"
  | JVal.str s => s
  | JVal.num n => toString n
  | JVal.bool b => if b then "true" else "false"
  | JVal.arr xs => String.intercalate "," (jShowList xs)
  | JVal.obj _ => "[object Object]"
where
  jShowList : List JVal → List String
    | [] => []
    | x :: xs => jShow x :: jShowList xs

/-! ## Errors -/

/-- A thrown JavaScript `Error`: its `name`, `message` and the optional
`status` property attached by `request`.  `String(err)` on an `Error`
produces `name + ": " + message`. -/
structure Err where
  name : String := "Error"
  msg : String
  status : Option Nat := none
deriving Repr, DecidableEq

/-- JavaScript `String(err)` for an `Error` object. -/
def strOfErr (e : Err) : String := e.name ++ ": " ++ e.msg

/-! ## Configuration and the client profile -/

/-- The `N8nConfig` interface fields used by the client (webhook helper
fields are unused by the request core and omitted). -/
structure N8nConfig where
  baseUrl : String
  apiKey : String
  rejectUnauthorized : Option Bool := none
  projectId : Option String := none
  timeoutMs : Option Nat := none
  retries : Option Nat := none
  debug : Option Bool := none
deriving Repr

/-- The immutable per-client state fixed by the `N8nClient` constructor. -/
structure Profile where
  baseUrl : String
  apiKey : String
  rejectUnauthorized : Bool
  projectId : Option String
  timeoutMs : Nat
  retries : Nat
  debug : Bool
deriving Repr

/-- The baseUrl normalisation in the constructor: strip one trailing slash. -/
def stripSlash (s : String) : String :=
  match s.data.reverse with
  | c :: rest => if c == '/' then ⟨rest.reverse⟩ else s
  | [] => s

/-- The `N8nClient` constructor: field defaults
`rejectUnauthorized = true`, `timeoutMs = 30000`, `retries = 3`,
`debug = false`, and `baseUrl` normalisation. -/
def mkClient (c : N8nConfig) : Profile where
  baseUrl := stripSlash c.baseUrl
  apiKey := c.apiKey
  rejectUnauthorized := c.rejectUnauthorized.getD true
  projectId := c.projectId
  timeoutMs := c.timeoutMs.getD 30000
  retries := c.retries.getD 3
  debug := c.debug.getD false

/-! ## Response handling: `parseApiError` and one transport attempt -/

/-- Source `parseApiError(status, text)`.  The JSON.parse outcome of `text`
is passed explicitly as `parsed` (`none` when the text does not parse as
JSON).  Message priority: the `message` field, else the nested
`error.message` field, else the raw text. -/
def parseApiError (status : Nat) (text : String) (parsed : Option JVal) : Err :=
  let m : String :=
    match parsed with
    | some j =>
      match jGet j "message" with
      | some v => jShow v
      | none =>
        match (jGet j "error").bind (fun e => jGet e "message") with
        | some v => jShow v
        | none => text
    | none => text
  { msg := "n8n API error " ++ toString status ++ ": " ++ m }

/-- Source `isRetryable(err, status)`: HTTP 429, any 5xx, or one of the
transport failure signatures in `String(err)`. -/
def isRetryable (e : Err) : Bool :=
  (match e.status with
   | some s => s == 429 || (500 ≤ s && s < 600)
   | none => false) ||
  (let s := strOfErr e
   strHas s "timed out" || strHas s "AbortError" || strHas s "ECONNRESET" ||
   strHas s "ETIMEDOUT" || strHas s "fetch failed")

/-- An HTTP response as observed by `doRequest`: status, whether the
content-type header includes `application/json`, the body text and its
JSON.parse outcome. -/
structure HttpResp where
  status : Nat
  ctJson : Bool
  text : String
  parsed : Option JVal

/-- The transport outcome of one `fetch` attempt: either a response or a
thrown error (timeouts surface as an error named `AbortError`). -/
inductive AttemptOutcome where
  | response : HttpResp → AttemptOutcome
  | failure : Err → AttemptOutcome

/-- One `doRequest` body: an `AbortError` becomes the timeout error; a
non-2xx response throws `parseApiError` with the status attached; a 2xx
JSON response with non-empty body is the parsed value (a body that fails to
parse rethrows the parse error); an empty body or non-JSON content-type
yields `undefined` (`none`). -/
def applyAttempt (timeoutMs : Nat) : AttemptOutcome → Except Err (Option JVal)
  | AttemptOutcome.failure e =>
    if e.name == "AbortError" then
      Except.error { msg := "n8n API request timed out after " ++ toString timeoutMs ++ "ms" }
    else Except.error e
  | AttemptOutcome.response r =>
    if !(200 ≤ r.status && r.status < 300) then
      Except.error { parseApiError r.status r.text r.parsed with status := some r.status }
    else if r.ctJson then
      if r.text != "" then
        match r.parsed with
        | some j => Except.ok (some j)
        | none => Except.error { name := "SyntaxError", msg := "Unexpected token in JSON: " ++ r.text }
      else Except.ok none
    else Except.ok none

/-! ## The retry loop of `request` -/

/-- What one `request` call did: its outcome, how many transport attempts
were made, and the backoff delays (in ms) waited between attempts. -/
structure ReqTrace where
  result : Except Err (Option JVal)
  attempts : Nat
  delays : List Nat
deriving Repr

/-- The `for (attempt = 0; attempt <= retries; attempt++)` loop of
`request`.  `t` gives the transport outcome of each attempt index; `fuel`
is the number of retries still allowed (`retries - attempt`).  A failed
attempt is retried after `min(1000 * 2 ^ attempt, 10000)` ms exactly when
retries remain and the error is retryable; otherwise the error is thrown. -/
def requestAux (timeoutMs : Nat) (t : Nat → AttemptOutcome) :
    Nat → Nat → ReqTrace
  | attempt, fuel =>
    match applyAttempt timeoutMs (t attempt) with
    | Except.ok v => ⟨Except.ok v, 1, []⟩
    | Except.error e =>
      match fuel with
      | 0 => ⟨Except.error e, 1, []⟩
      | fuel' + 1 =>
        if isRetryable e then
          let rest := requestAux timeoutMs t (attempt + 1) fuel'
          ⟨rest.result, rest.attempts + 1, min (1000 * 2 ^ attempt) 10000 :: rest.delays⟩
        else ⟨Except.error e, 1, []⟩

/-- Source `request`: run the attempt loop from attempt 0 with
`retries` retries allowed. -/
def clientRequest (p : Profile) (t : Nat → AttemptOutcome) : ReqTrace :=
  requestAux p.timeoutMs t 0 p.retries

/-! ## Resource operations

Each `N8nClient` method calls `this.request(method, path, body?)`.  The
operations are embedded over an oracle standing for `request`: it maps
`(method, path, body?)` to the outcome of that call (the value or the
thrown error).  Each operation returns its own outcome together with the
trace of `(method, path)` calls it issued, in order. -/

/-- Outcome of one `this.request` call, as seen by a resource method. -/
abbrev Oracle : Type := String → String → Option JVal → Except Err (Option JVal)

/-- One issued call: method and path. -/
abbrev Call : Type := String × String

/-- The fallback test of `listWorkflowsPaginated`: the stringified error
contains `404`. -/
def contains404 (e : Err) : Bool := strHas (strOfErr e) "404"

/-- The fallback test of the other workflow methods: the stringified error
contains `404` or `not found`. -/
def containsNotFound (e : Err) : Bool :=
  strHas (strOfErr e) "404" || strHas (strOfErr e) "not found"

/-- A workflow or execution list response, reduced to the two fields the
client reads: the `data` array (absent or `null` behaves as absent) and the
`nextCursor` string. -/
structure ListResp where
  data : Option (List JVal)
  nextCursor : Option String
deriving Repr

/-- Read a parsed (or `undefined`) list response the way the list methods
do: `res ?? \x7b data: [] \x7d`, then the `data` and `nextCursor` fields.
Non-array `data` and non-string `nextCursor` values are outside the model
and behave as absent. -/
def decodeListResp : Option JVal → ListResp
  | none => { data := some [], nextCursor := none }
  | some j =>
    { data := match jField j "data" with
        | some (JVal.arr xs) => some xs
        | _ => none
      nextCursor := match jField j "nextCursor" with
        | some (JVal.str s) => some s
        | _ => none }

/-- JavaScript boolean stringification. -/
def boolStr (b : Bool) : String := if b then "true" else "false"

/-- Query string built by `listWorkflowsPaginated` (`active`, `cursor`,
`name`, in that order; `cursor` and `name` only when truthy).  URL
percent-encoding is not modelled; values are assumed URL-safe. -/
def wfQs (active : Option Bool) (cursor name : Option String) : String :=
  let ps :=
    (match active with
     | some b => ["active=" ++ boolStr b]
     | none => []) ++
    (if truthy cursor then ["cursor=" ++ cursor.getD ""] else []) ++
    (if truthy name then ["name=" ++ name.getD ""] else [])
  if ps.isEmpty then "" else "?" ++ String.intercalate "&" ps

/-- Query string built by `listExecutionsPaginated` (`workflowId`,
`cursor`, `status`, in that order, each only when truthy). -/
def exQs (workflowId cursor status : Option String) : String :=
  let ps :=
    (if truthy workflowId then ["workflowId=" ++ workflowId.getD ""] else []) ++
    (if truthy cursor then ["cursor=" ++ cursor.getD ""] else []) ++
    (if truthy status then ["status=" ++ status.getD ""] else [])
  if ps.isEmpty then "" else "?" ++ String.intercalate "&" ps

/-- Source `listWorkflowsPaginated`: scoped path when `projectId` is
truthy; on an error whose string contains `404`, one retry against the
unscoped path whose result is returned. -/
def listWorkflowsPaginated (p : Profile) (tr : Oracle)
    (active : Option Bool) (cursor name : Option String) :
    Except Err ListResp × List Call :=
  let qs := wfQs active cursor name
  let path := if truthy p.projectId then
      "projects/" ++ p.projectId.getD "" ++ "/workflows" ++ qs
    else "workflows" ++ qs
  match tr "GET" path none with
  | Except.ok v => (Except.ok (decodeListResp v), [("GET", path)])
  | Except.error e =>
    if truthy p.projectId && contains404 e then
      match tr "GET" ("workflows" ++ qs) none with
      | Except.ok v =>
        (Except.ok (decodeListResp v), [("GET", path), ("GET", "workflows" ++ qs)])
      | Except.error e2 =>
        (Except.error e2, [("GET", path), ("GET", "workflows" ++ qs)])
    else (Except.error e, [("GET", path)])

/-- Source `createWorkflow`: the scoped path comes from its own
`projectId` parameter (not from the profile); fallback on `404` or
`not found`. -/
def createWorkflow (_p : Profile) (tr : Oracle)
    (workflow : JVal) (projectId : Option String) :
    Except Err (Option JVal) × List Call :=
  if truthy projectId then
    let path := "projects/" ++ projectId.getD "" ++ "/workflows"
    match tr "POST" path (some workflow) with
    | Except.ok v => (Except.ok v, [("POST", path)])
    | Except.error e =>
      if containsNotFound e then
        (tr "POST" "workflows" (some workflow), [("POST", path), ("POST", "workflows")])
      else (Except.error e, [("POST", path)])
  else (tr "POST" "workflows" (some workflow), [("POST", "workflows")])

/-- Source `getWorkflow`: scoped path from the profile, fallback on `404`
or `not found`. -/
def getWorkflow (p : Profile) (tr : Oracle) (id : String) :
    Except Err (Option JVal) × List Call :=
  let path := if truthy p.projectId then
      "projects/" ++ p.projectId.getD "" ++ "/workflows/" ++ id
    else "workflows/" ++ id
  match tr "GET" path none with
  | Except.ok v => (Except.ok v, [("GET", path)])
  | Except.error e =>
    if truthy p.projectId && containsNotFound e then
      (tr "GET" ("workflows/" ++ id) none, [("GET", path), ("GET", "workflows/" ++ id)])
    else (Except.error e, [("GET", path)])

/-- Source `updateWorkflow` (PUT with the workflow body), same fallback as
`getWorkflow`. -/
def updateWorkflow (p : Profile) (tr : Oracle) (id : String) (workflow : JVal) :
    Except Err (Option JVal) × List Call :=
  let path := if truthy p.projectId then
      "projects/" ++ p.projectId.getD "" ++ "/workflows/" ++ id
    else "workflows/" ++ id
  match tr "PUT" path (some workflow) with
  | Except.ok v => (Except.ok v, [("PUT", path)])
  | Except.error e =>
    if truthy p.projectId && containsNotFound e then
      (tr "PUT" ("workflows/" ++ id) (some workflow),
       [("PUT", path), ("PUT", "workflows/" ++ id)])
    else (Except.error e, [("PUT", path)])

/-- Source `deleteWorkflow`, same fallback; the response value is
discarded. -/
def deleteWorkflow (p : Profile) (tr : Oracle) (id : String) :
    Except Err Unit × List Call :=
  let path := if truthy p.projectId then
      "projects/" ++ p.projectId.getD "" ++ "/workflows/" ++ id
    else "workflows/" ++ id
  match tr "DELETE" path none with
  | Except.ok _ => (Except.ok (), [("DELETE", path)])
  | Except.error e =>
    if truthy p.projectId && containsNotFound e then
      match tr "DELETE" ("workflows/" ++ id) none with
      | Except.ok _ => (Except.ok (), [("DELETE", path), ("DELETE", "workflows/" ++ id)])
      | Except.error e2 =>
        (Except.error e2, [("DELETE", path), ("DELETE", "workflows/" ++ id)])
    else (Except.error e, [("DELETE", path)])

/-- Source `activateWorkflow` (POST with an empty object body), same
fallback. -/
def activateWorkflow (p : Profile) (tr : Oracle) (id : String) :
    Except Err Unit × List Call :=
  let path := if truthy p.projectId then
      "projects/" ++ p.projectId.getD "" ++ "/workflows/" ++ id ++ "/activate"
    else "workflows/" ++ id ++ "/activate"
  match tr "POST" path (some (JVal.obj [])) with
  | Except.ok _ => (Except.ok (), [("POST", path)])
  | Except.error e =>
    if truthy p.projectId && containsNotFound e then
      match tr "POST" ("workflows/" ++ id ++ "/activate") (some (JVal.obj [])) with
      | Except.ok _ =>
        (Except.ok (), [("POST", path), ("POST", "workflows/" ++ id ++ "/activate")])
      | Except.error e2 =>
        (Except.error e2, [("POST", path), ("POST", "workflows/" ++ id ++ "/activate")])
    else (Except.error e, [("POST", path)])

/-- Source `deactivateWorkflow`, mirror of `activateWorkflow`. -/
def deactivateWorkflow (p : Profile) (tr : Oracle) (id : String) :
    Except Err Unit × List Call :=
  let path := if truthy p.projectId then
      "projects/" ++ p.projectId.getD "" ++ "/workflows/" ++ id ++ "/deactivate"
    else "workflows/" ++ id ++ "/deactivate"
  match tr "POST" path (some (JVal.obj [])) with
  | Except.ok _ => (Except.ok (), [("POST", path)])
  | Except.error e =>
    if truthy p.projectId && containsNotFound e then
      match tr "POST" ("workflows/" ++ id ++ "/deactivate") (some (JVal.obj [])) with
      | Except.ok _ =>
        (Except.ok (), [("POST", path), ("POST", "workflows/" ++ id ++ "/deactivate")])
      | Except.error e2 =>
        (Except.error e2, [("POST", path), ("POST", "workflows/" ++ id ++ "/deactivate")])
    else (Except.error e, [("POST", path)])

/-- Source `listExecutionsPaginated`: always the unscoped `executions`
path, no fallback. -/
def listExecutionsPaginated (_p : Profile) (tr : Oracle)
    (workflowId cursor status : Option String) :
    Except Err ListResp × List Call :=
  let path := "executions" ++ exQs workflowId cursor status
  match tr "GET" path none with
  | Except.ok v => (Except.ok (decodeListResp v), [("GET", path)])
  | Except.error e => (Except.error e, [("GET", path)])

/-- Source `getExecution`. -/
def getExecution (_p : Profile) (tr : Oracle) (id : String) :
    Except Err (Option JVal) × List Call :=
  (tr "GET" ("executions/" ++ id) none, [("GET", "executions/" ++ id)])

/-- Source `stopExecution`. -/
def stopExecution (_p : Profile) (tr : Oracle) (id : String) :
    Except Err Unit × List Call :=
  match tr "POST" ("executions/" ++ id ++ "/stop") (some (JVal.obj [])) with
  | Except.ok _ => (Except.ok (), [("POST", "executions/" ++ id ++ "/stop")])
  | Except.error e => (Except.error e, [("POST", "executions/" ++ id ++ "/stop")])

/-- Source `deleteExecution`. -/
def deleteExecution (_p : Profile) (tr : Oracle) (id : String) :
    Except Err Unit × List Call :=
  match tr "DELETE" ("executions/" ++ id) none with
  | Except.ok _ => (Except.ok (), [("DELETE", "executions/" ++ id)])
  | Except.error e => (Except.error e, [("DELETE", "executions/" ++ id)])

/-- Identifier extraction of `retryExecution`:
`data.id`, then `data.executionId`, then top-level `id`, then top-level
`executionId`, defaulting to the empty string. -/
def extractRetryId (res : Option JVal) : String :=
  let d := res.bind (fun j => jGet j "data")
  (((d.bind (fun x => jGetStr x "id")).orElse
      (fun _ => d.bind (fun x => jGetStr x "executionId"))).orElse
      (fun _ => (res.bind (fun j => jGetStr j "id")).orElse
        (fun _ => res.bind (fun j => jGetStr j "executionId")))).getD ""

/-- Source `retryExecution`: POST to the retry path, extract an execution
id, terminal error when none. -/
def retryExecution (_p : Profile) (tr : Oracle) (id : String) :
    Except Err String × List Call :=
  let path := "executions/" ++ id ++ "/retry"
  match tr "POST" path (some (JVal.obj [])) with
  | Except.ok res =>
    let eid := extractRetryId res
    if eid != "" then (Except.ok eid, [("POST", path)])
    else (Except.error { msg := "Retry returned no execution ID" }, [("POST", path)])
  | Except.error e => (Except.error e, [("POST", path)])

/-- Source `ping`: true exactly when one `listWorkflowsPaginated()` call
(with no arguments) does not throw. -/
def ping (p : Profile) (tr : Oracle) : Bool :=
  match (listWorkflowsPaginated p tr none none none).1 with
  | Except.ok _ => true
  | Except.error _ => false

/-- Identifier extraction of `runWorkflow`:
`data.executionId`, then `data.id`, then top-level `id`, defaulting to the
empty string. -/
def extractRunId (res : Option JVal) : String :=
  let d := res.bind (fun j => jGet j "data")
  (((d.bind (fun x => jGetStr x "executionId")).orElse
      (fun _ => d.bind (fun x => jGetStr x "id"))).orElse
      (fun _ => res.bind (fun j => jGetStr j "id"))).getD ""

/-- The terminal error of `runWorkflow` when no execution id could be
extracted. -/
def noExecIdErr (p : Profile) : Err :=
  { msg := "Workflow run returned no execution ID. Check " ++ p.baseUrl ++
      "/api/v1/docs for the correct endpoint." }

/-- The primary-endpoint body of `runWorkflow`: the payload wrapped in a
`data` field when given, else an empty object. -/
def runBodyOf (data : Option JVal) : JVal :=
  match data with
  | some d => JVal.obj [("data", d)]
  | none => JVal.obj []

/-- The secondary-endpoint body of `runWorkflow`: the workflow id spread
together with the primary body. -/
def runExecBodyOf (workflowId : String) (data : Option JVal) : JVal :=
  match data with
  | some d => JVal.obj [("workflowId", JVal.str workflowId), ("data", d)]
  | none => JVal.obj [("workflowId", JVal.str workflowId)]

/-- Source `runWorkflow`: POST to the run path; when that call throws,
POST the execution-shaped body to `executions`; extract an id from
whichever response arrived; when the reached attempts yield no id, throw
the terminal no-execution-id error. -/
def runWorkflow (p : Profile) (tr : Oracle)
    (workflowId : String) (data : Option JVal) :
    Except Err String × List Call :=
  let body := runBodyOf data
  let execBody := runExecBodyOf workflowId data
  let runPath := "workflows/" ++ workflowId ++ "/run"
  match tr "POST" runPath (some body) with
  | Except.ok res =>
    let eid := extractRunId res
    if eid != "" then (Except.ok eid, [("POST", runPath)])
    else (Except.error (noExecIdErr p), [("POST", runPath)])
  | Except.error _ =>
    match tr "POST" "executions" (some execBody) with
    | Except.ok res =>
      let eid := extractRunId res
      if eid != "" then (Except.ok eid, [("POST", runPath), ("POST", "executions")])
      else (Except.error (noExecIdErr p), [("POST", runPath), ("POST", "executions")])
    | Except.error e2 => (Except.error e2, [("POST", runPath), ("POST", "executions")])

/-! ## The list-all loops

`listWorkflowsAll` and `listExecutionsAll` run a do-while loop: call the
paginated primitive, append `res.data ?? []`, set the cursor to
`res.nextCursor`, continue while the cursor is truthy.  The loop is
embedded over the sequence of per-call results the server produces: the
n-th successful paginated call returns the n-th entry of `pages`. -/

/-- Source `listWorkflowsAll` over the sequence of page results. -/
def listWorkflowsAllFrom : List ListResp → List JVal
  | [] => []
  | pg :: rest =>
    pg.data.getD [] ++ (if truthy pg.nextCursor then listWorkflowsAllFrom rest else [])

/-- Source `listExecutionsAll` over the sequence of page results. -/
def listExecutionsAllFrom : List ListResp → List JVal
  | [] => []
  | pg :: rest =>
    pg.data.getD [] ++ (if truthy pg.nextCursor then listExecutionsAllFrom rest else [])

/-! ## `toFriendlyApiError` -/

/-- The view `toFriendlyApiError` takes of its argument: the message text
(`String(err)` itself for a non-Error input) and the `code` and `message`
of the optional nested cause, both defaulting to the empty string when
there is no cause (as in the source).  A non-Error input has no cause. -/
structure ErrView where
  msg : String
  causeCode : String := ""
  causeMsg : String := ""

/-- Source `toFriendlyApiError`: a pure, total classifier matching the
message and cause in a fixed priority order and returning a remediation
string; an unrecognised input is returned unchanged. -/
def toFriendlyApiError (e : ErrView) : String :=
  if strHas e.msg "401" || strHas e.msg "unauthorized" then
    "Invalid API key. Update apiKey in your config (n8n-config.local.json or N8N_API_KEY).\n" ++
    "  Create an API key in n8n: Settings → API."
  else if strHas e.msg "403" || strHas e.msg "forbidden" then
    "Access denied (403). Check that your API key has the required permissions.\n" ++
    "  Create or regenerate an API key in n8n: Settings → API."
  else if strHas e.msg "404" || strHas e.msg "not found" then
    "n8n instance not found. Check baseUrl in your config (n8n-config.local.json or N8N_BASE_URL).\n" ++
    "  Ensure the URL is correct and n8n is running."
  else if e.causeCode == "ENOTFOUND" || strHas e.causeMsg "ENOTFOUND" || strHas e.msg "getaddrinfo" then
    "Cannot resolve n8n hostname. Check baseUrl in your config (n8n-config.local.json or N8N_BASE_URL).\n" ++
    "  Ensure the URL is correct and reachable from your network."
  else if e.causeCode == "ECONNREFUSED" || strHas e.causeMsg "ECONNREFUSED" then
    "Cannot connect to n8n. Is it running? Check baseUrl in your config (n8n-config.local.json or N8N_BASE_URL).\n" ++
    "  For local: start n8n with `npx n8n` (default port 5678)."
  else if e.causeCode == "SELF_SIGNED_CERT_IN_CHAIN" || strHas e.causeMsg "SELF_SIGNED_CERT" || strHas e.msg "self-signed" then
    "Self-signed certificate rejected. For corporate/internal n8n instances:\n" ++
    "  Set rejectUnauthorized: false in config, or run with NODE_TLS_REJECT_UNAUTHORIZED=0."
  else if strHas e.msg "timed out" || strHas e.msg "AbortError" then
    "Request timed out. Check baseUrl and network. Increase timeoutMs in config if needed."
  else if strHas e.msg "n8n API error" then
    e.msg ++ "\n  Check baseUrl and apiKey in your config."
  else if strHas e.msg "fetch failed" || e.causeMsg != "" then
    "Connection failed: " ++ (if e.causeMsg != "" then e.causeMsg else e.msg) ++
    "\n  Check baseUrl and apiKey in your config (n8n-config.local.json or env vars)."
  else e.msg

/-! ## `loadConfig`

Ambient process state (environment variables, cwd, the module directory,
the filesystem) is passed explicitly; reading a file yields either a read
failure, or content together with its JSON.parse outcome. -/

/-- The environment variables `loadConfig` reads. -/
structure EnvVars where
  baseUrl : Option String := none
  apiKey : Option String := none
  projectId : Option String := none
  rejectUnauthorized : Option String := none
  configFile : Option String := none

/-- The process and filesystem context: cwd, the directory of the resolver module, parent-directory resolution, basename, and file reading
(`none`: the read fails; `some none`: content that does not parse as JSON;
`some (some j)`: content parsing to `j`). -/
structure SysCtx where
  cwd : String
  dirname : String
  parentDir : String → String
  baseName : String → String
  readFile : String → Option (Option JVal)

/-- `path.join(dir, name)`, with separators assumed normalised. -/
def joinPath (d n : String) : String := d ++ "/" ++ n

/-- `path.isAbsolute` for POSIX-style paths. -/
def isAbsPath (n : String) : Bool := strStarts n "/"

/-- The result of `loadConfig`: either the profile built from the two
environment variables, or the parsed config-file object returned
verbatim. -/
inductive LoadedConfig where
  | fromEnv : String → String → Option String → Bool → LoadedConfig
  | fromFile : JVal → LoadedConfig

/-- The candidate root directories, in search order: cwd, its parent, and
one and two levels above the module directory. -/
def candidateDirs (sys : SysCtx) : List String :=
  [sys.cwd, sys.parentDir sys.cwd,
   sys.parentDir sys.dirname, sys.parentDir (sys.parentDir sys.dirname)]

/-- The candidate file names: the trimmed `N8N_CONFIG_FILE` override when
truthy, otherwise the local then the plain default name. -/
def configNames (env : EnvVars) : List String :=
  let f := env.configFile.map strTrim
  if truthy f then [f.getD ""]
  else ["config/n8n-config.local.json", "config/n8n-config.json"]

/-- Try one config path: succeed exactly when the read succeeds, the
content parses, and both `baseUrl` and `apiKey` fields are truthy; the
parsed object is returned verbatim. -/
def tryConfigFile (sys : SysCtx) (p : String) : Option JVal :=
  match sys.readFile p with
  | some (some j) =>
    if truthy (jGetStr j "baseUrl") && truthy (jGetStr j "apiKey") then some j
    else none
  | _ => none

/-- Inner loop over file names for a fixed root directory. -/
def searchNames (sys : SysCtx) (rootDir : String) : List String → Option JVal
  | [] => none
  | n :: ns =>
    match tryConfigFile sys (if isAbsPath n then n else joinPath rootDir n) with
    | some j => some j
    | none => searchNames sys rootDir ns

/-- Outer loop over candidate directories. -/
def searchDirs (sys : SysCtx) (names : List String) : List String → Option JVal
  | [] => none
  | d :: ds =>
    match searchNames sys d names with
    | some j => some j
    | none => searchDirs sys names ds

/-- The final error message of `loadConfig`. -/
def loadConfigErrMsg (sys : SysCtx) : String :=
  let hint :=
    if strHas sys.cwd "n8n-tools" || strHas sys.cwd "n8n-cli" then
      " Create config/n8n-config.local.json in " ++ sys.baseName sys.cwd ++
      " (copy from config/n8n-config.example.json)."
    else ""
  "Failed to load n8n config. Use N8N_BASE_URL + N8N_API_KEY env vars, or create config/n8n-config.local.json with \x7b \"baseUrl\": \"...\", \"apiKey\": \"...\" \x7d. Use N8N_CONFIG_FILE for a specific config file." ++ hint

/-- Source `loadConfig`: environment variables first (both truthy after
trimming); otherwise the first candidate directory and file name whose
content parses and carries truthy `baseUrl` and `apiKey`; otherwise the
remediation error. -/
def loadConfig (env : EnvVars) (sys : SysCtx) : Except Err LoadedConfig :=
  let baseUrl := env.baseUrl.map strTrim
  let apiKey := env.apiKey.map strTrim
  if truthy baseUrl && truthy apiKey then
    Except.ok (LoadedConfig.fromEnv (baseUrl.getD "") (apiKey.getD "")
      (let pid := env.projectId.map strTrim
       if truthy pid then pid else none)
      (env.rejectUnauthorized != some "false"))
  else
    match searchDirs sys (configNames env) (candidateDirs sys) with
    | some j => Except.ok (LoadedConfig.fromFile j)
    | none => Except.error { msg := loadConfigErrMsg sys }

/-! ## Spec-worded refinement definition -/

/-- The list-all loop as the specification words it, for comparison with
`listWorkflowsAllFrom`: the loop terminates exactly when a response omits
the next-page token (so a present-but-empty token would continue). -/
def listAllUntilOmitted : List ListResp → List JVal
  | [] => []
  | pg :: rest =>
    pg.data.getD [] ++
      (match pg.nextCursor with
       | some _ => listAllUntilOmitted rest
       | none => [])

/-- A profile with the scope removed; used to state that a fallback call
behaves exactly like the same operation on an unscoped profile. -/
def unscopedOf (p : Profile) : Profile := { p with projectId := none }

/-! ## Concrete test vectors

Concrete profiles, transports and oracles used to instantiate the theorems
below on explicit inputs. -/

def pPlain : Profile := mkClient { baseUrl := "https://test.n8n.example.com", apiKey := "key" }

def pScoped : Profile :=
  mkClient { baseUrl := "https://test.n8n.example.com", apiKey := "key", projectId := some "P" }

/-- Attempt 0 fails with HTTP 500; every later attempt returns HTTP 200
with a JSON body holding an empty data array. -/
def scn2Transport : Nat → AttemptOutcome := fun n =>
  if n = 0 then AttemptOutcome.response ⟨500, false, "Internal Server Error", none⟩
  else AttemptOutcome.response
    ⟨200, true, "\x7b\"data\":[]\x7d", some (JVal.obj [("data", JVal.arr [])])⟩

def scn2Profile : Profile :=
  mkClient { baseUrl := "https://test.n8n.example.com", apiKey := "key", retries := some 1 }

/-- The request-level oracle induced by `scn2Transport`: every logical call
resolves to the outcome of the retried request. -/
def scn2Oracle : Oracle := fun _ _ _ => (clientRequest scn2Profile scn2Transport).result

/-- A transport whose every attempt throws a plain error. -/
def w2Transport : Nat → AttemptOutcome := fun _ => AttemptOutcome.failure { msg := "boom" }

/-- A bare connection-refused failure: the signature appears only in the
message, there is no HTTP status and no fetch-failed wrapper. -/
def cx3Err : Err := { msg := "connect ECONNREFUSED 127.0.0.1:5678" }

def cx3Transport : Nat → AttemptOutcome := fun _ => AttemptOutcome.failure cx3Err

/-- A non-retryable HTTP 400 failure. -/
def w3Err : Err := { msg := "n8n API error 400: Bad Request", status := some 400 }

def w3Transport : Nat → AttemptOutcome := fun _ => AttemptOutcome.failure w3Err

/-- Oracle for the run-workflow scenario: the `executions` endpoint returns
an execution wrapped as `data.id`; every other path (in particular the
primary run path) throws. -/
def scn5Oracle : Oracle := fun _ path _ =>
  if path == "executions" then
    Except.ok (some (JVal.obj [("data", JVal.obj [("id", JVal.str "exec-2")])]))
  else Except.error { msg := "primary endpoint failed" }

/-- Oracle on which every call succeeds with an object carrying no
extractable identifier. -/
def w5Oracle : Oracle := fun _ _ _ => Except.ok (some (JVal.obj []))

/-- A scoped-path failure whose HTTP status is 400 (not 404) but whose
message contains the substring `not found`. -/
def cx1Err : Err := { msg := "n8n API error 400: parameter not found", status := some 400 }

def cx1Oracle : Oracle := fun _ path _ =>
  if path == "projects/P/workflows/w1" then Except.error cx1Err else Except.ok none

/-- Environment with only the config-file override set. -/
def cx8Env : EnvVars := { configFile := some "/tmp/custom.json" }

/-- A system context on which every file read fails and the cwd matches no
repository-name hint. -/
def cx8Sys : SysCtx :=
  { cwd := "/home/user/proj", dirname := "/opt/lib/app",
    parentDir := fun _ => "/parent", baseName := fun _ => "proj",
    readFile := fun _ => none }

/-- Environment resolving through the two env vars, with surrounding
whitespace and a TLS-override value other than the literal false. -/
def w8Env : EnvVars :=
  { baseUrl := some " https://n8n.example.com ", apiKey := some "k",
    rejectUnauthorized := some "0" }

def cx9Oracle : Oracle := fun _ _ _ => Except.ok none

/-! ## Helper lemmas on strings -/

theorem strData_append (a b : String) : (a ++ b).data = a.data ++ b.data := rfl

theorem startsHere_mono (p l m : List Char) (h : startsHere p l = true) :
    startsHere p (l ++ m) = true := by
  induction p generalizing l with
  | nil => simp [startsHere]
  | cons a as ih =>
    cases l with
    | nil => simp [startsHere] at h
    | cons b bs =>
      simp only [startsHere, Bool.and_eq_true] at h ⊢
      exact ⟨h.1, ih bs h.2⟩

theorem hasSub_nil_pat (l : List Char) : hasSub [] l = true := by
  cases l <;> simp [hasSub, startsHere]

theorem hasSub_append_left (p l m : List Char) (h : hasSub p l = true) :
    hasSub p (l ++ m) = true := by
  induction l with
  | nil =>
    simp only [hasSub] at h
    cases p with
    | nil => simpa using hasSub_nil_pat m
    | cons c cs => simp [startsHere] at h
  | cons b bs ih =>
    simp only [hasSub, Bool.or_eq_true] at h
    rcases h with h | h
    · have := startsHere_mono p (b :: bs) m h
      simp only [List.cons_append, hasSub, Bool.or_eq_true]
      left
      simpa using this
    · simp only [List.cons_append, hasSub, Bool.or_eq_true]
      right
      exact ih h

theorem strHas_append_left (a b pat : String) (h : strHas a pat = true) :
    strHas (a ++ b) pat = true := by
  simp only [strHas, strData_append]
  exact hasSub_append_left _ _ _ h

theorem startsHere_append_both (a b c : List Char) :
    startsHere (a ++ b) (a ++ c) = startsHere b c := by
  induction a with
  | nil => rfl
  | cons x xs ih => simp [startsHere, ih]

/-! ## Helper lemmas on the retry loop -/

theorem requestAux_attempts_pos (T : Nat) (t : Nat → AttemptOutcome) (a fuel : Nat) :
    1 ≤ (requestAux T t a fuel).attempts := by
  rw [requestAux]
  cases applyAttempt T (t a) with
  | ok v => simp
  | error e =>
    cases fuel with
    | zero => simp
    | succ f =>
      by_cases h : isRetryable e <;> simp [h]

theorem requestAux_attempts_le (T : Nat) (t : Nat → AttemptOutcome) (fuel a : Nat) :
    (requestAux T t a fuel).attempts ≤ fuel + 1 := by
  induction fuel generalizing a with
  | zero =>
    rw [requestAux]
    cases applyAttempt T (t a) <;> simp
  | succ f ih =>
    rw [requestAux]
    cases applyAttempt T (t a) with
    | ok v => simp
    | error e =>
      by_cases h : isRetryable e <;> simp [h]
      exact ih (a + 1)

theorem requestAux_delays_spec (T : Nat) (t : Nat → AttemptOutcome) (fuel a : Nat) :
    (requestAux T t a fuel).delays =
      (List.range ((requestAux T t a fuel).attempts - 1)).map
        (fun k => min (1000 * 2 ^ (a + k)) 10000) := by
  induction fuel generalizing a with
  | zero =>
    rw [requestAux]
    cases applyAttempt T (t a) <;> simp
  | succ f ih =>
    rw [requestAux]
    cases applyAttempt T (t a) with
    | ok v => simp
    | error e =>
      by_cases h : isRetryable e <;> simp only [h]
      · have hpos := requestAux_attempts_pos T t (a + 1) f
        obtain ⟨m, hm⟩ := Nat.exists_eq_add_of_le hpos
        simp only [Bool.true_eq, if_true]
        rw [hm, ih (a + 1)]
        simp only [hm, Nat.add_sub_cancel_left, Nat.add_sub_cancel]
        rw [show 1 + m = m + 1 by omega, List.range_succ_eq_map]
        simp only [List.map_cons, List.map_map]
        congr 1
        apply List.map_congr_left
        intro k _
        have hk : a + 1 + k = a + (k + 1) := by omega
        simp [Function.comp, hk]
      · simp

theorem requestAux_last_error (T : Nat) (t : Nat → AttemptOutcome) (fuel a : Nat)
    (e : Err) (h : (requestAux T t a fuel).result = Except.error e) :
    applyAttempt T (t (a + (requestAux T t a fuel).attempts - 1)) = Except.error e := by
  induction fuel generalizing a with
  | zero =>
    rw [requestAux] at h ⊢
    cases ha : applyAttempt T (t a) with
    | ok v => rw [ha] at h; simp at h
    | error e0 =>
      rw [ha] at h
      simp at h
      simp [ha, Nat.add_sub_cancel, ← h]
  | succ f ih =>
    rw [requestAux] at h ⊢
    cases ha : applyAttempt T (t a) with
    | ok v => rw [ha] at h; simp at h
    | error e0 =>
      rw [ha] at h
      by_cases hr : isRetryable e0
      · simp only [hr, if_true] at h ⊢
        have hpos := requestAux_attempts_pos T t (a + 1) f
        have := ih (a + 1) (by simpa using h)
        simpa [show a + ((requestAux T t (a + 1) f).attempts + 1) - 1 =
          a + 1 + (requestAux T t (a + 1) f).attempts - 1 by omega] using this
      · simp only [hr, if_false] at h ⊢
        simp at h
        simp [ha, Nat.add_sub_cancel, ← h]

/-! ## Helper lemmas on the list-all loops -/

theorem listWorkflowsAllFrom_split (ps1 : List ListResp) (pg : ListResp)
    (ps2 : List ListResp) (h1 : ∀ q ∈ ps1, truthy q.nextCursor = true)
    (h2 : truthy pg.nextCursor = false) :
    listWorkflowsAllFrom (ps1 ++ pg :: ps2) =
      (ps1.map (fun q => q.data.getD [])).flatten ++ pg.data.getD [] := by
  induction ps1 with
  | nil => simp [listWorkflowsAllFrom, h2]
  | cons q qs ih =>
    have hq : truthy q.nextCursor = true := h1 q (by simp)
    have ih2 := ih (fun x hx => h1 x (by simp [hx]))
    simp [listWorkflowsAllFrom, hq, ih2]

theorem listExecutionsAllFrom_split (ps1 : List ListResp) (pg : ListResp)
    (ps2 : List ListResp) (h1 : ∀ q ∈ ps1, truthy q.nextCursor = true)
    (h2 : truthy pg.nextCursor = false) :
    listExecutionsAllFrom (ps1 ++ pg :: ps2) =
      (ps1.map (fun q => q.data.getD [])).flatten ++ pg.data.getD [] := by
  induction ps1 with
  | nil => simp [listExecutionsAllFrom, h2]
  | cons q qs ih =>
    have hq : truthy q.nextCursor = true := h1 q (by simp)
    have ih2 := ih (fun x hx => h1 x (by simp [hx]))
    simp [listExecutionsAllFrom, hq, ih2]

/-! ## Claim C10 -/

/-- C10: `ping` is a total boolean health check: it never throws, returns
true exactly when the single-page workflow list call succeeds, and false
exactly when that call fails for any reason. -/
theorem claim10_ping_total_health : ∀ (p : Profile) (tr : Oracle),
    (ping p tr = true ↔ ∃ r, (listWorkflowsPaginated p tr none none none).1 = Except.ok r) ∧
    (ping p tr = false ↔ ∃ e, (listWorkflowsPaginated p tr none none none).1 = Except.error e) := by
  intro p tr
  unfold ping
  cases h : (listWorkflowsPaginated p tr none none none).1 <;> simp [h]

/-! ## Claim C7 -/

/-- C7 counterexample: the loop does not terminate exactly when a response
omits the next-page token — a present-but-empty token also terminates it.
On pages whose first entry carries the cursor as the empty string, the code
stops after page one, while the spec-worded loop would continue. -/
theorem claim7_counterexample :
    listWorkflowsAllFrom [⟨some [JVal.str "A"], some ""⟩, ⟨some [JVal.str "B"], none⟩] =
      [JVal.str "A"] ∧
    listAllUntilOmitted [⟨some [JVal.str "A"], some ""⟩, ⟨some [JVal.str "B"], none⟩] =
      [JVal.str "A", JVal.str "B"] ∧
    listWorkflowsAllFrom [⟨some [JVal.str "A"], some ""⟩, ⟨some [JVal.str "B"], none⟩] ≠
      listAllUntilOmitted [⟨some [JVal.str "A"], some ""⟩, ⟨some [JVal.str "B"], none⟩] := by
  refine ⟨rfl, rfl, fun h => ?_⟩
  have h1 : (listWorkflowsAllFrom
      [⟨some [JVal.str "A"], some ""⟩, ⟨some [JVal.str "B"], none⟩]).length = 1 := rfl
  rw [h] at h1
  exact absurd h1 (by decide)

/-- C7 (amended): the list-all loops concatenate the pages in server order
without deduplication or re-sorting, and terminate exactly when a page
carries an absent or empty next-page token: for any run of pages with
truthy cursors followed by a terminating page, the result is the
concatenation of their data arrays in order, later pages being ignored;
in particular the two-page scenario yields the three records in order. -/
theorem claim7_list_all_concatenation :
    (∀ (ps1 : List ListResp) (pg : ListResp) (ps2 : List ListResp),
      (∀ q ∈ ps1, truthy q.nextCursor = true) → truthy pg.nextCursor = false →
      listWorkflowsAllFrom (ps1 ++ pg :: ps2) =
        (ps1.map (fun q => q.data.getD [])).flatten ++ pg.data.getD []) ∧
    (∀ (ps1 : List ListResp) (pg : ListResp) (ps2 : List ListResp),
      (∀ q ∈ ps1, truthy q.nextCursor = true) → truthy pg.nextCursor = false →
      listExecutionsAllFrom (ps1 ++ pg :: ps2) =
        (ps1.map (fun q => q.data.getD [])).flatten ++ pg.data.getD []) ∧
    listWorkflowsAllFrom
      [⟨some [JVal.str "A", JVal.str "B"], some "c1"⟩, ⟨some [JVal.str "C"], none⟩] =
      [JVal.str "A", JVal.str "B", JVal.str "C"] ∧
    listExecutionsAllFrom
      [⟨some [JVal.str "A", JVal.str "B"], some "c1"⟩, ⟨some [JVal.str "C"], none⟩] =
      [JVal.str "A", JVal.str "B", JVal.str "C"] := by
  exact ⟨listWorkflowsAllFrom_split, listExecutionsAllFrom_split, rfl, rfl⟩

/-- C7 witness: the amended theorem applied to the concrete two-page
scenario. -/
theorem claim7_witness :
    listWorkflowsAllFrom
      [⟨some [JVal.str "A", JVal.str "B"], some "c1"⟩, ⟨some [JVal.str "C"], none⟩] =
      (([(⟨some [JVal.str "A", JVal.str "B"], some "c1"⟩ : ListResp)]).map
        (fun q => q.data.getD [])).flatten ++
        (⟨some [JVal.str "C"], none⟩ : ListResp).data.getD [] :=
  claim7_list_all_concatenation.1
    [⟨some [JVal.str "A", JVal.str "B"], some "c1"⟩] ⟨some [JVal.str "C"], none⟩ []
    (by decide) (by decide)

/-! ## Claim C2 -/

/-- C2: for every transport behaviour the request primitive makes at most
`retries + 1` attempts; the delay waited after failed attempt `k` is
exactly `min(1000 * 2 ^ k, 10000)` ms with no jitter; when the call fails,
the propagated error is exactly the error of the last attempt made; and in
the concrete scenario (retries 1, first attempt HTTP 500, second attempt
HTTP 200 with an empty data array) the paginated list operation returns the
empty page with no cursor after exactly 2 attempts with one 1000 ms wait. -/
theorem claim2_retry_budget_backoff :
    (∀ (p : Profile) (t : Nat → AttemptOutcome),
      (clientRequest p t).attempts ≤ p.retries + 1) ∧
    (∀ (p : Profile) (t : Nat → AttemptOutcome),
      (clientRequest p t).delays =
        (List.range ((clientRequest p t).attempts - 1)).map
          (fun k => min (1000 * 2 ^ k) 10000)) ∧
    (∀ (p : Profile) (t : Nat → AttemptOutcome) (e : Err),
      (clientRequest p t).result = Except.error e →
      applyAttempt p.timeoutMs (t ((clientRequest p t).attempts - 1)) = Except.error e) ∧
    clientRequest scn2Profile scn2Transport =
      ⟨Except.ok (some (JVal.obj [("data", JVal.arr [])])), 2, [1000]⟩ ∧
    listWorkflowsPaginated scn2Profile scn2Oracle none none none =
      (Except.ok ⟨some [], none⟩, [("GET", "workflows")]) := by
  refine ⟨?_, ?_, ?_, rfl, rfl⟩
  · intro p t
    exact requestAux_attempts_le p.timeoutMs t p.retries 0
  · intro p t
    have h := requestAux_delays_spec p.timeoutMs t p.retries 0
    unfold clientRequest
    rw [h]
    apply List.map_congr_left
    intro k _
    simp
  · intro p t e h
    have := requestAux_last_error p.timeoutMs t p.retries 0 e h
    simpa using this

/-- C2 witness: the last-error conjunct applied to a transport whose only
attempt throws a plain non-retryable error. -/
theorem claim2_witness :
    applyAttempt pPlain.timeoutMs
      (w2Transport ((clientRequest pPlain w2Transport).attempts - 1)) =
      Except.error { name := "Error", msg := "boom", status := none } :=
  claim2_retry_budget_backoff.2.2.1 pPlain w2Transport
    { name := "Error", msg := "boom", status := none } rfl

/-! ## Claim C3 -/

/-- C3 counterexample: a transport failure carrying the connection-refused
signature only in its message (no HTTP status, no fetch-failed wrapper) is
not classified retryable, and with `retries = 3` the engine still makes
exactly one attempt, contradicting the claim that connection-refused
signatures are retried. -/
theorem claim3_counterexample :
    isRetryable cx3Err = false ∧
    pPlain.retries = 3 ∧
    (clientRequest pPlain cx3Transport).attempts = 1 ∧
    (clientRequest pPlain cx3Transport).result = Except.error cx3Err :=
  ⟨by decide, rfl, rfl, rfl⟩

/-- C3 (amended): a failed attempt is retried exactly when classified
retryable — HTTP 429, any 5xx, or a stringified error containing one of
`timed out`, `AbortError`, `ECONNRESET`, `ETIMEDOUT`, `fetch failed` (a
bare connection-refused signature is not in this list and is not retried);
every non-retryable failure propagates immediately with exactly one
attempt regardless of the retry budget, and a retryable first failure with
budget left leads to a second attempt. -/
theorem claim3_retry_classification :
    (∀ (p : Profile) (t : Nat → AttemptOutcome) (e : Err),
      applyAttempt p.timeoutMs (t 0) = Except.error e → isRetryable e = false →
      clientRequest p t = ⟨Except.error e, 1, []⟩) ∧
    (∀ (p : Profile) (t : Nat → AttemptOutcome) (e : Err),
      applyAttempt p.timeoutMs (t 0) = Except.error e → isRetryable e = true →
      1 ≤ p.retries → 2 ≤ (clientRequest p t).attempts) ∧
    isRetryable { msg := "x", status := some 429 } = true ∧
    (∀ s : Nat, 500 ≤ s → s < 600 → isRetryable { msg := "x", status := some s } = true) ∧
    isRetryable { msg := "n8n API request timed out after 30000ms" } = true ∧
    isRetryable { msg := "read ECONNRESET" } = true ∧
    isRetryable { msg := "connect ETIMEDOUT 10.0.0.1:443" } = true ∧
    isRetryable { name := "TypeError", msg := "fetch failed" } = true ∧
    isRetryable w3Err = false := by
  refine ⟨?_, ?_, by decide, ?_, by decide, by decide, by decide, by decide, by decide⟩
  · intro p t e h hr
    unfold clientRequest
    rw [requestAux, h]
    cases hp : p.retries with
    | zero => rfl
    | succ n => simp [hr]
  · intro p t e h hr hp
    unfold clientRequest
    rw [requestAux, h]
    obtain ⟨n, hn⟩ : ∃ n, p.retries = n + 1 := ⟨p.retries - 1, by omega⟩
    rw [hn]
    simp only [hr, if_true]
    have := requestAux_attempts_pos p.timeoutMs t 1 n
    show 2 ≤ (requestAux p.timeoutMs t 1 n).attempts + 1
    omega
  · intro s h1 h2
    have hb : (500 ≤ s && s < 600) = true := by
      simp only [Bool.and_eq_true, decide_eq_true_eq]
      exact ⟨h1, h2⟩
    simp [isRetryable, hb]

/-- C3 witness: the one-attempt conjunct applied to a persistent HTTP 400
failure with the default retry budget of 3. -/
theorem claim3_witness :
    clientRequest pPlain w3Transport = ⟨Except.error w3Err, 1, []⟩ :=
  claim3_retry_classification.1 pPlain w3Transport w3Err rfl (by decide)

/-! ## Claim C6 -/

/-- C6: a non-2xx response becomes an error carrying the HTTP status and a
message taken from the JSON body message field, else the nested
error-message field, else the raw text (also when the body does not parse);
a 2xx JSON response with non-empty body is parsed and returned; a 2xx
response with an empty body or a non-JSON content-type yields an undefined
result rather than an error. -/
theorem claim6_response_handling :
    (∀ (T : Nat) (r : HttpResp), (200 ≤ r.status && r.status < 300) = false →
      applyAttempt T (AttemptOutcome.response r) =
        Except.error { parseApiError r.status r.text r.parsed with status := some r.status }) ∧
    (∀ (status : Nat) (text : String) (j v : JVal), jGet j "message" = some v →
      parseApiError status text (some j) =
        { msg := "n8n API error " ++ toString status ++ ": " ++ jShow v }) ∧
    (∀ (status : Nat) (text : String) (j v : JVal), jGet j "message" = none →
      (jGet j "error").bind (fun x => jGet x "message") = some v →
      parseApiError status text (some j) =
        { msg := "n8n API error " ++ toString status ++ ": " ++ jShow v }) ∧
    (∀ (status : Nat) (text : String) (j : JVal), jGet j "message" = none →
      (jGet j "error").bind (fun x => jGet x "message") = none →
      parseApiError status text (some j) =
        { msg := "n8n API error " ++ toString status ++ ": " ++ text }) ∧
    (∀ (status : Nat) (text : String),
      parseApiError status text none =
        { msg := "n8n API error " ++ toString status ++ ": " ++ text }) ∧
    (∀ (T : Nat) (r : HttpResp) (j : JVal), (200 ≤ r.status && r.status < 300) = true →
      r.ctJson = true → r.text ≠ "" → r.parsed = some j →
      applyAttempt T (AttemptOutcome.response r) = Except.ok (some j)) ∧
    (∀ (T : Nat) (r : HttpResp), (200 ≤ r.status && r.status < 300) = true →
      r.ctJson = true → r.text = "" →
      applyAttempt T (AttemptOutcome.response r) = Except.ok none) ∧
    (∀ (T : Nat) (r : HttpResp), (200 ≤ r.status && r.status < 300) = true →
      r.ctJson = false →
      applyAttempt T (AttemptOutcome.response r) = Except.ok none) := by
  refine ⟨?_, ?_, ?_, ?_, ?_, ?_, ?_, ?_⟩
  · intro T r h
    simp [applyAttempt, h]
  · intro status text j v h
    simp [parseApiError, h]
  · intro status text j v h1 h2
    simp [parseApiError, h1, h2]
  · intro status text j h1 h2
    simp [parseApiError, h1, h2]
  · intro status text
    simp [parseApiError]
  · intro T r j h1 h2 h3 h4
    have h3b : (r.text != "") = true := by simpa [bne_iff_ne] using h3
    simp [applyAttempt, h1, h2, h3b, h4]
  · intro T r h1 h2 h3
    simp [applyAttempt, h1, h2, h3]
  · intro T r h1 h2
    simp [applyAttempt, h1, h2]

/-- C6 witness: the non-2xx conjunct applied to a concrete 404 response
with a non-JSON body. -/
theorem claim6_witness :
    applyAttempt 30000 (AttemptOutcome.response ⟨404, false, "nope", none⟩) =
      Except.error { parseApiError 404 "nope" none with status := some 404 } :=
  claim6_response_handling.1 30000 ⟨404, false, "nope", none⟩ (by decide)

/-! ## Claim C4 -/

/-- C4 counterexample: the classifier does not map every
connection-refused or unresolved-hostname signature found in the message
text to its remediation category — without a nested cause, a message
containing only `ECONNREFUSED` (or only `ENOTFOUND`, without
`getaddrinfo`) falls through every branch and is returned unchanged. -/
theorem claim4_counterexample :
    toFriendlyApiError { msg := "connect ECONNREFUSED 1.2.3.4:5678" } =
      "connect ECONNREFUSED 1.2.3.4:5678" ∧
    strHas (toFriendlyApiError { msg := "connect ECONNREFUSED 1.2.3.4:5678" })
      "Is it running" = false ∧
    toFriendlyApiError { msg := "ENOTFOUND n8n.example.com" } = "ENOTFOUND n8n.example.com" ∧
    strHas (toFriendlyApiError { msg := "ENOTFOUND n8n.example.com" })
      "Cannot resolve" = false :=
  ⟨by decide, by decide, by decide, by decide⟩

set_option maxRecDepth 4096 in
/-- C4 (amended): the classifier is a pure total function of the message
text and the optional cause code/message; it maps, in priority order,
unauthorized, forbidden and not-found message signatures, unresolved
hostname (via cause code/message or the `getaddrinfo` message substring),
connection refused (via cause code/message only), self-signed certificate,
timeout, the branded n8n API error, and other transport failures, each to
its documented remediation string, the category outputs being pairwise
distinct; any other non-Error input (a plain unrecognised string) is
returned unchanged. -/
theorem claim4_classifier :
    toFriendlyApiError { msg := "n8n API error 401: unauthorized" } =
      "Invalid API key. Update apiKey in your config (n8n-config.local.json or N8N_API_KEY).\n" ++
      "  Create an API key in n8n: Settings → API." ∧
    toFriendlyApiError { msg := "n8n API error 403: forbidden" } =
      "Access denied (403). Check that your API key has the required permissions.\n" ++
      "  Create or regenerate an API key in n8n: Settings → API." ∧
    toFriendlyApiError { msg := "n8n API error 404: not found" } =
      "n8n instance not found. Check baseUrl in your config (n8n-config.local.json or N8N_BASE_URL).\n" ++
      "  Ensure the URL is correct and n8n is running." ∧
    toFriendlyApiError
        { msg := "fetch failed", causeCode := "ENOTFOUND",
          causeMsg := "getaddrinfo ENOTFOUND host" } =
      "Cannot resolve n8n hostname. Check baseUrl in your config (n8n-config.local.json or N8N_BASE_URL).\n" ++
      "  Ensure the URL is correct and reachable from your network." ∧
    toFriendlyApiError { msg := "request failed: getaddrinfo ENOTFOUND host" } =
      "Cannot resolve n8n hostname. Check baseUrl in your config (n8n-config.local.json or N8N_BASE_URL).\n" ++
      "  Ensure the URL is correct and reachable from your network." ∧
    toFriendlyApiError
        { msg := "fetch failed", causeCode := "ECONNREFUSED",
          causeMsg := "connect ECONNREFUSED 127.0.0.1:5678" } =
      "Cannot connect to n8n. Is it running? Check baseUrl in your config (n8n-config.local.json or N8N_BASE_URL).\n" ++
      "  For local: start n8n with `npx n8n` (default port 5678)." ∧
    toFriendlyApiError { msg := "self-signed certificate in certificate chain" } =
      "Self-signed certificate rejected. For corporate/internal n8n instances:\n" ++
      "  Set rejectUnauthorized: false in config, or run with NODE_TLS_REJECT_UNAUTHORIZED=0." ∧
    toFriendlyApiError { msg := "n8n API request timed out after 100ms" } =
      "Request timed out. Check baseUrl and network. Increase timeoutMs in config if needed." ∧
    toFriendlyApiError { msg := "n8n API error 500: Internal Server Error" } =
      "n8n API error 500: Internal Server Error\n  Check baseUrl and apiKey in your config." ∧
    toFriendlyApiError { msg := "fetch failed" } =
      "Connection failed: fetch failed\n" ++
      "  Check baseUrl and apiKey in your config (n8n-config.local.json or env vars)." ∧
    List.Pairwise (fun a b => a ≠ b)
      [toFriendlyApiError { msg := "n8n API error 401: unauthorized" },
       toFriendlyApiError { msg := "n8n API error 403: forbidden" },
       toFriendlyApiError { msg := "n8n API error 404: not found" },
       toFriendlyApiError { msg := "request failed: getaddrinfo ENOTFOUND host" },
       toFriendlyApiError
         { msg := "fetch failed", causeCode := "ECONNREFUSED",
           causeMsg := "connect ECONNREFUSED 127.0.0.1:5678" },
       toFriendlyApiError { msg := "self-signed certificate in certificate chain" },
       toFriendlyApiError { msg := "n8n API request timed out after 100ms" },
       toFriendlyApiError { msg := "n8n API error 500: Internal Server Error" },
       toFriendlyApiError { msg := "fetch failed" }] ∧
    (∀ s : String,
      strHas s "401" = false → strHas s "unauthorized" = false →
      strHas s "403" = false → strHas s "forbidden" = false →
      strHas s "404" = false → strHas s "not found" = false →
      strHas s "getaddrinfo" = false → strHas s "self-signed" = false →
      strHas s "timed out" = false → strHas s "AbortError" = false →
      strHas s "n8n API error" = false → strHas s "fetch failed" = false →
      toFriendlyApiError { msg := s } = s) := by
  refine ⟨by decide, by decide, by decide, by decide, by decide, by decide, by decide,
    by decide, by decide, by decide, by decide, ?_⟩
  intro s h1 h2 h3 h4 h5 h6 h7 h8 h9 h10 h11 h12
  simp [toFriendlyApiError, h1, h2, h3, h4, h5, h6, h7, h8, h9, h10, h11, h12,
    show (("" : String) == "ENOTFOUND") = false from by decide,
    show strHas "" "ENOTFOUND" = false from by decide,
    show (("" : String) == "ECONNREFUSED") = false from by decide,
    show strHas "" "ECONNREFUSED" = false from by decide,
    show (("" : String) == "SELF_SIGNED_CERT_IN_CHAIN") = false from by decide,
    show strHas "" "SELF_SIGNED_CERT" = false from by decide,
    show (("" : String) != "") = false from by decide]

/-- C4 witness: the passthrough conjunct applied to a concrete
unrecognised message. -/
theorem claim4_witness :
    toFriendlyApiError { msg := "Totally unexpected mishap" } = "Totally unexpected mishap" :=
  claim4_classifier.2.2.2.2.2.2.2.2.2.2.2 "Totally unexpected mishap"
    (by decide) (by decide) (by decide) (by decide) (by decide) (by decide)
    (by decide) (by decide) (by decide) (by decide) (by decide) (by decide)

/-! ## Claim C5 -/

theorem noExecIdErr_msg (p : Profile) :
    strHas (noExecIdErr p).msg "no execution ID" = true := by
  show strHas ("Workflow run returned no execution ID. Check " ++ p.baseUrl ++
    "/api/v1/docs for the correct endpoint.") "no execution ID" = true
  have h1 : strHas ("Workflow run returned no execution ID. Check " ++ p.baseUrl)
      "no execution ID" = true :=
    strHas_append_left _ _ _ (by decide)
  exact strHas_append_left _ _ _ h1

/-- C5: `runWorkflow` posts to the primary run endpoint first; on any
failure of that call it posts the execution-shaped request to the
secondary `executions` endpoint (and to nothing else); the execution id is
extracted with priority `data.executionId`, then `data.id`, then top-level
`id`; when the attempts that were reached produce no extractable id the
result is the terminal error whose message mentions `no execution ID`,
with no further calls; and in the concrete scenario where the primary
endpoint throws and the secondary returns an execution wrapped as
`data.id = exec-2`, the result is exactly `exec-2`. -/
theorem claim5_run_workflow :
    (∀ (p : Profile) (tr : Oracle) (wid : String) (d : Option JVal) (e : Err),
      tr "POST" ("workflows/" ++ wid ++ "/run") (some (runBodyOf d)) = Except.error e →
      (runWorkflow p tr wid d).2 =
        [("POST", "workflows/" ++ wid ++ "/run"), ("POST", "executions")]) ∧
    (∀ a b c : String,
      extractRunId (some (JVal.obj
        [("data", JVal.obj [("executionId", JVal.str a), ("id", JVal.str b)]),
         ("id", JVal.str c)])) = a) ∧
    (∀ b c : String,
      extractRunId (some (JVal.obj
        [("data", JVal.obj [("id", JVal.str b)]), ("id", JVal.str c)])) = b) ∧
    (∀ c : String, extractRunId (some (JVal.obj [("id", JVal.str c)])) = c) ∧
    (∀ p : Profile, strHas (noExecIdErr p).msg "no execution ID" = true) ∧
    (∀ (p : Profile) (tr : Oracle) (wid : String) (d : Option JVal) (res : Option JVal),
      tr "POST" ("workflows/" ++ wid ++ "/run") (some (runBodyOf d)) = Except.ok res →
      extractRunId res = "" →
      runWorkflow p tr wid d =
        (Except.error (noExecIdErr p), [("POST", "workflows/" ++ wid ++ "/run")])) ∧
    (∀ (p : Profile) (tr : Oracle) (wid : String) (d : Option JVal) (e : Err)
        (res : Option JVal),
      tr "POST" ("workflows/" ++ wid ++ "/run") (some (runBodyOf d)) = Except.error e →
      tr "POST" "executions" (some (runExecBodyOf wid d)) = Except.ok res →
      extractRunId res = "" →
      runWorkflow p tr wid d =
        (Except.error (noExecIdErr p),
         [("POST", "workflows/" ++ wid ++ "/run"), ("POST", "executions")])) ∧
    runWorkflow pPlain scn5Oracle "w1" none =
      (Except.ok "exec-2", [("POST", "workflows/w1/run"), ("POST", "executions")]) := by
  refine ⟨?_, fun a b c => rfl, fun b c => rfl, fun c => rfl, noExecIdErr_msg, ?_, ?_, rfl⟩
  · intro p tr wid d e h
    cases h2 : tr "POST" "executions" (some (runExecBodyOf wid d)) with
    | ok res =>
      cases he : extractRunId res != "" <;> simp [runWorkflow, h, h2, he]
    | error e2 => simp [runWorkflow, h, h2]
  · intro p tr wid d res h he
    simp [runWorkflow, h, he]
  · intro p tr wid d e res h h2 he
    simp [runWorkflow, h, h2, he]

/-- C5 witness: the primary-failure conjunct applied to the concrete
scenario oracle. -/
theorem claim5_witness :
    (runWorkflow pPlain scn5Oracle "w1" none).2 =
      [("POST", "workflows/w1/run"), ("POST", "executions")] :=
  claim5_run_workflow.1 pPlain scn5Oracle "w1" none
    { name := "Error", msg := "primary endpoint failed", status := none } rfl

/-! ## Helper lemmas on request paths -/

theorem strStartsProj3 (pid u : String) (h : strStarts u "/" = true) :
    strStarts ("projects/" ++ pid ++ u) ("projects/" ++ pid ++ "/") = true := by
  unfold strStarts at h ⊢
  simp only [strData_append, List.append_assoc]
  rw [startsHere_append_both, startsHere_append_both]
  exact h

theorem strStartsProj4 (pid u v : String) (h : strStarts u "/" = true) :
    strStarts ("projects/" ++ pid ++ u ++ v) ("projects/" ++ pid ++ "/") = true := by
  unfold strStarts at h ⊢
  simp only [strData_append, List.append_assoc]
  rw [startsHere_append_both, startsHere_append_both]
  exact startsHere_mono _ _ _ h

theorem strStartsProj5 (pid u v w : String) (h : strStarts u "/" = true) :
    strStarts ("projects/" ++ pid ++ u ++ v ++ w) ("projects/" ++ pid ++ "/") = true := by
  unfold strStarts at h ⊢
  simp only [strData_append, List.append_assoc]
  rw [startsHere_append_both, startsHere_append_both]
  rw [← List.append_assoc]
  exact startsHere_mono _ _ _ (startsHere_mono _ _ _ h)

theorem strStartsW1 (s : String) : strStarts ("workflows" ++ s) "projects/" = false := rfl

theorem strStartsW2 (s : String) : strStarts ("workflows/" ++ s) "projects/" = false := rfl

theorem strStartsW3 (s t : String) :
    strStarts ("workflows/" ++ s ++ t) "projects/" = false := rfl

theorem strStartsE1 (s : String) : strStarts ("executions" ++ s) "projects/" = false := rfl

theorem strStartsE2 (s : String) : strStarts ("executions/" ++ s) "projects/" = false := rfl

theorem strStartsE3 (s t : String) :
    strStarts ("executions/" ++ s ++ t) "projects/" = false := rfl

/-! ## Claim C1 -/

/-- C1 counterexample: the fallback triggers on a message-text test, not
on an actual 404 classification — a scoped-path failure with HTTP status
400 whose message contains `not found` is retried against the unscoped
path, although the claim says a non-404 scoped failure is never retried. -/
theorem claim1_counterexample :
    pScoped.projectId = some "P" ∧
    cx1Err.status = some 400 ∧
    contains404 cx1Err = false ∧
    (getWorkflow pScoped cx1Oracle "w1").2 =
      [("GET", "projects/P/workflows/w1"), ("GET", "workflows/w1")] :=
  ⟨rfl, rfl, by decide, by decide⟩

/-- C1 (amended): for a profile with a non-empty scopeId, every primary
workflow operation that fails on the scoped path with an error matching
its textual fallback test — a message containing `404` for the paginated
list; a message containing `404` or `not found` for create, get, update,
delete, activate and deactivate — is retried exactly once against the
unscoped path and behaves from then on exactly like the unscoped
operation (its result is returned as-is); a failure matching neither
substring is never retried (one call only, error returned unchanged);
and no operation of the executions family ever issues a call on a scoped
path. -/
theorem claim1_scoped_fallback :
    ∀ (p : Profile) (pid : String), p.projectId = some pid → pid ≠ "" →
    ∀ (tr : Oracle) (e : Err),
    (∀ (a : Option Bool) (c n : Option String),
      tr "GET" ("projects/" ++ pid ++ "/workflows" ++ wfQs a c n) none = Except.error e →
      contains404 e = true →
      listWorkflowsPaginated p tr a c n =
        ((listWorkflowsPaginated (unscopedOf p) tr a c n).1,
         ("GET", "projects/" ++ pid ++ "/workflows" ++ wfQs a c n) ::
           (listWorkflowsPaginated (unscopedOf p) tr a c n).2)) ∧
    (∀ (a : Option Bool) (c n : Option String),
      tr "GET" ("projects/" ++ pid ++ "/workflows" ++ wfQs a c n) none = Except.error e →
      contains404 e = false →
      listWorkflowsPaginated p tr a c n =
        (Except.error e, [("GET", "projects/" ++ pid ++ "/workflows" ++ wfQs a c n)])) ∧
    (∀ (wf : JVal) (q : String), q ≠ "" →
      tr "POST" ("projects/" ++ q ++ "/workflows") (some wf) = Except.error e →
      containsNotFound e = true →
      createWorkflow p tr wf (some q) =
        (tr "POST" "workflows" (some wf),
         [("POST", "projects/" ++ q ++ "/workflows"), ("POST", "workflows")])) ∧
    (∀ (wf : JVal) (q : String), q ≠ "" →
      tr "POST" ("projects/" ++ q ++ "/workflows") (some wf) = Except.error e →
      containsNotFound e = false →
      createWorkflow p tr wf (some q) =
        (Except.error e, [("POST", "projects/" ++ q ++ "/workflows")])) ∧
    (∀ id : String,
      tr "GET" ("projects/" ++ pid ++ "/workflows/" ++ id) none = Except.error e →
      containsNotFound e = true →
      getWorkflow p tr id =
        ((getWorkflow (unscopedOf p) tr id).1,
         ("GET", "projects/" ++ pid ++ "/workflows/" ++ id) ::
           (getWorkflow (unscopedOf p) tr id).2)) ∧
    (∀ id : String,
      tr "GET" ("projects/" ++ pid ++ "/workflows/" ++ id) none = Except.error e →
      containsNotFound e = false →
      getWorkflow p tr id =
        (Except.error e, [("GET", "projects/" ++ pid ++ "/workflows/" ++ id)])) ∧
    (∀ (id : String) (wf : JVal),
      tr "PUT" ("projects/" ++ pid ++ "/workflows/" ++ id) (some wf) = Except.error e →
      containsNotFound e = true →
      updateWorkflow p tr id wf =
        ((updateWorkflow (unscopedOf p) tr id wf).1,
         ("PUT", "projects/" ++ pid ++ "/workflows/" ++ id) ::
           (updateWorkflow (unscopedOf p) tr id wf).2)) ∧
    (∀ (id : String) (wf : JVal),
      tr "PUT" ("projects/" ++ pid ++ "/workflows/" ++ id) (some wf) = Except.error e →
      containsNotFound e = false →
      updateWorkflow p tr id wf =
        (Except.error e, [("PUT", "projects/" ++ pid ++ "/workflows/" ++ id)])) ∧
    (∀ id : String,
      tr "DELETE" ("projects/" ++ pid ++ "/workflows/" ++ id) none = Except.error e →
      containsNotFound e = true →
      deleteWorkflow p tr id =
        ((deleteWorkflow (unscopedOf p) tr id).1,
         ("DELETE", "projects/" ++ pid ++ "/workflows/" ++ id) ::
           (deleteWorkflow (unscopedOf p) tr id).2)) ∧
    (∀ id : String,
      tr "DELETE" ("projects/" ++ pid ++ "/workflows/" ++ id) none = Except.error e →
      containsNotFound e = false →
      deleteWorkflow p tr id =
        (Except.error e, [("DELETE", "projects/" ++ pid ++ "/workflows/" ++ id)])) ∧
    (∀ id : String,
      tr "POST" ("projects/" ++ pid ++ "/workflows/" ++ id ++ "/activate")
        (some (JVal.obj [])) = Except.error e →
      containsNotFound e = true →
      activateWorkflow p tr id =
        ((activateWorkflow (unscopedOf p) tr id).1,
         ("POST", "projects/" ++ pid ++ "/workflows/" ++ id ++ "/activate") ::
           (activateWorkflow (unscopedOf p) tr id).2)) ∧
    (∀ id : String,
      tr "POST" ("projects/" ++ pid ++ "/workflows/" ++ id ++ "/activate")
        (some (JVal.obj [])) = Except.error e →
      containsNotFound e = false →
      activateWorkflow p tr id =
        (Except.error e,
         [("POST", "projects/" ++ pid ++ "/workflows/" ++ id ++ "/activate")])) ∧
    (∀ id : String,
      tr "POST" ("projects/" ++ pid ++ "/workflows/" ++ id ++ "/deactivate")
        (some (JVal.obj [])) = Except.error e →
      containsNotFound e = true →
      deactivateWorkflow p tr id =
        ((deactivateWorkflow (unscopedOf p) tr id).1,
         ("POST", "projects/" ++ pid ++ "/workflows/" ++ id ++ "/deactivate") ::
           (deactivateWorkflow (unscopedOf p) tr id).2)) ∧
    (∀ id : String,
      tr "POST" ("projects/" ++ pid ++ "/workflows/" ++ id ++ "/deactivate")
        (some (JVal.obj [])) = Except.error e →
      containsNotFound e = false →
      deactivateWorkflow p tr id =
        (Except.error e,
         [("POST", "projects/" ++ pid ++ "/workflows/" ++ id ++ "/deactivate")])) ∧
    (∀ (wid c st : Option String), ∀ call ∈ (listExecutionsPaginated p tr wid c st).2,
      strStarts call.2 "projects/" = false) ∧
    (∀ id : String, ∀ call ∈ (getExecution p tr id).2,
      strStarts call.2 "projects/" = false) ∧
    (∀ id : String, ∀ call ∈ (retryExecution p tr id).2,
      strStarts call.2 "projects/" = false) ∧
    (∀ id : String, ∀ call ∈ (stopExecution p tr id).2,
      strStarts call.2 "projects/" = false) ∧
    (∀ id : String, ∀ call ∈ (deleteExecution p tr id).2,
      strStarts call.2 "projects/" = false) := by
  intro p pid hp hne tr e
  have hbne : (pid != "") = true := by
    simp only [bne_iff_ne, ne_eq]
    exact hne
  refine ⟨?_, ?_, ?_, ?_, ?_, ?_, ?_, ?_, ?_, ?_, ?_, ?_, ?_, ?_, ?_, ?_, ?_, ?_, ?_⟩
  · intro a c n h h4
    cases h2 : tr "GET" ("workflows" ++ wfQs a c n) none <;>
      simp [listWorkflowsPaginated, unscopedOf, hp, truthy, hbne, h, h2, h4]
  · intro a c n h h4
    simp [listWorkflowsPaginated, hp, truthy, hbne, h, h4]
  · intro wf q hq h h4
    have hbq : (q != "") = true := by
      simp only [bne_iff_ne, ne_eq]
      exact hq
    simp [createWorkflow, truthy, hbq, h, h4]
  · intro wf q hq h hn
    have hbq : (q != "") = true := by
      simp only [bne_iff_ne, ne_eq]
      exact hq
    simp [createWorkflow, truthy, hbq, h, hn]
  · intro id h h4
    cases h2 : tr "GET" ("workflows/" ++ id) none <;>
      simp [getWorkflow, unscopedOf, hp, truthy, hbne, h, h2, h4]
  · intro id h hn
    simp [getWorkflow, hp, truthy, hbne, h, hn]
  · intro id wf h h4
    cases h2 : tr "PUT" ("workflows/" ++ id) (some wf) <;>
      simp [updateWorkflow, unscopedOf, hp, truthy, hbne, h, h2, h4]
  · intro id wf h hn
    simp [updateWorkflow, hp, truthy, hbne, h, hn]
  · intro id h h4
    cases h2 : tr "DELETE" ("workflows/" ++ id) none <;>
      simp [deleteWorkflow, unscopedOf, hp, truthy, hbne, h, h2, h4]
  · intro id h hn
    simp [deleteWorkflow, hp, truthy, hbne, h, hn]
  · intro id h h4
    cases h2 : tr "POST" ("workflows/" ++ id ++ "/activate") (some (JVal.obj [])) <;>
      simp [activateWorkflow, unscopedOf, hp, truthy, hbne, h, h2, h4]
  · intro id h hn
    simp [activateWorkflow, hp, truthy, hbne, h, hn]
  · intro id h h4
    cases h2 : tr "POST" ("workflows/" ++ id ++ "/deactivate") (some (JVal.obj [])) <;>
      simp [deactivateWorkflow, unscopedOf, hp, truthy, hbne, h, h2, h4]
  · intro id h hn
    simp [deactivateWorkflow, hp, truthy, hbne, h, hn]
  · intro wid c st call hc
    cases h2 : tr "GET" ("executions" ++ exQs wid c st) none <;>
      simp [listExecutionsPaginated, h2] at hc <;> subst hc <;> exact strStartsE1 _
  · intro id call hc
    simp [getExecution] at hc
    subst hc
    exact strStartsE2 _
  · intro id call hc
    cases h2 : tr "POST" ("executions/" ++ id ++ "/retry") (some (JVal.obj [])) with
    | ok res =>
      cases he : extractRetryId res != "" <;>
        simp [retryExecution, h2, he] at hc <;> subst hc <;> exact strStartsE3 _ _
    | error e2 =>
      simp [retryExecution, h2] at hc
      subst hc
      exact strStartsE3 _ _
  · intro id call hc
    cases h2 : tr "POST" ("executions/" ++ id ++ "/stop") (some (JVal.obj [])) <;>
      simp [stopExecution, h2] at hc <;> subst hc <;> exact strStartsE3 _ _
  · intro id call hc
    cases h2 : tr "DELETE" ("executions/" ++ id) none <;>
      simp [deleteExecution, h2] at hc <;> subst hc <;> exact strStartsE2 _

/-- C1 witness: the get-workflow fallback conjunct applied to a scoped
profile and a scoped-path failure whose message contains `not found` but
not `404`: the call is retried exactly once unscoped and behaves like the
unscoped operation. -/
theorem claim1_witness :
    getWorkflow pScoped cx1Oracle "w1" =
      ((getWorkflow (unscopedOf pScoped) cx1Oracle "w1").1,
       ("GET", "projects/" ++ "P" ++ "/workflows/" ++ "w1") ::
         (getWorkflow (unscopedOf pScoped) cx1Oracle "w1").2) :=
  ((claim1_scoped_fallback pScoped "P" rfl (by decide)
    cx1Oracle cx1Err).2.2.2.2.1) "w1" rfl (by decide)

/-! ## Claim C8 -/

/-- C8 counterexample: when nothing matches, the failure message names the
override variable only generically — it does not echo which override path
was attempted: with the override set to a concrete path and every read
failing, the attempted path does not occur in the error message. -/
theorem claim8_counterexample :
    cx8Env.configFile = some "/tmp/custom.json" ∧
    loadConfig cx8Env cx8Sys = Except.error { msg := loadConfigErrMsg cx8Sys } ∧
    strHas (loadConfigErrMsg cx8Sys) "/tmp/custom.json" = false ∧
    strHas (loadConfigErrMsg cx8Sys) "N8N_CONFIG_FILE" = true :=
  ⟨rfl, rfl, by decide, by decide⟩

/-- C8 (amended): the resolver uses the two environment variables first —
whenever both are non-empty after trimming it builds the profile
immediately, folding in the trimmed scope id and treating any TLS-override
value other than the literal `false` as true; otherwise it returns the
first candidate directory/filename combination that parses and carries
non-empty `baseUrl` and `apiKey`, verbatim; and when nothing matches it
fails with a message naming both remediation paths (the env vars and
creating the file) and mentioning the override variable generically,
without echoing the attempted override path. -/
theorem claim8_load_config :
    (∀ (env : EnvVars) (sys : SysCtx) (bu ak : String),
      env.baseUrl = some bu → env.apiKey = some ak →
      strTrim bu ≠ "" → strTrim ak ≠ "" →
      loadConfig env sys = Except.ok (LoadedConfig.fromEnv (strTrim bu) (strTrim ak)
        (if truthy (env.projectId.map strTrim) then env.projectId.map strTrim else none)
        (env.rejectUnauthorized != some "false"))) ∧
    (∀ (env : EnvVars) (sys : SysCtx) (j : JVal),
      (truthy (env.baseUrl.map strTrim) && truthy (env.apiKey.map strTrim)) = false →
      searchDirs sys (configNames env) (candidateDirs sys) = some j →
      loadConfig env sys = Except.ok (LoadedConfig.fromFile j)) ∧
    (∀ (env : EnvVars) (sys : SysCtx),
      (truthy (env.baseUrl.map strTrim) && truthy (env.apiKey.map strTrim)) = false →
      searchDirs sys (configNames env) (candidateDirs sys) = none →
      loadConfig env sys = Except.error { msg := loadConfigErrMsg sys }) ∧
    (∀ sys : SysCtx,
      strHas (loadConfigErrMsg sys) "N8N_BASE_URL" = true ∧
      strHas (loadConfigErrMsg sys) "N8N_API_KEY" = true ∧
      strHas (loadConfigErrMsg sys) "config/n8n-config.local.json" = true) ∧
    loadConfig w8Env cx8Sys =
      Except.ok (LoadedConfig.fromEnv "https://n8n.example.com" "k" none true) := by
  refine ⟨?_, ?_, ?_, ?_, rfl⟩
  · intro env sys bu ak h1 h2 h3 h4
    have hb : (strTrim bu != "") = true := by
      simp only [bne_iff_ne, ne_eq]
      exact h3
    have ha : (strTrim ak != "") = true := by
      simp only [bne_iff_ne, ne_eq]
      exact h4
    simp [loadConfig, h1, h2, truthy, hb, ha]
  · intro env sys j hf hs
    simp [loadConfig, hf, hs]
  · intro env sys hf hs
    simp [loadConfig, hf, hs]
  · intro sys
    refine ⟨?_, ?_, ?_⟩ <;>
      exact strHas_append_left _ _ _ (by decide)

/-- C8 witness: the env-first conjunct applied to an environment whose
server address carries surrounding whitespace and whose TLS override is a
value other than the literal false. -/
theorem claim8_witness :
    loadConfig w8Env cx8Sys = Except.ok (LoadedConfig.fromEnv
      (strTrim " https://n8n.example.com ") (strTrim "k")
      (if truthy (w8Env.projectId.map strTrim) then w8Env.projectId.map strTrim else none)
      (w8Env.rejectUnauthorized != some "false")) :=
  claim8_load_config.1 w8Env cx8Sys " https://n8n.example.com " "k" rfl rfl
    (by decide) (by decide)

/-! ## Claim C9 -/

/-- C9 counterexample: the scoped path of `createWorkflow` comes from its
per-call `projectId` parameter, not from the profile — with the profile
scoped to `P`, a create call with parameter `Q` issues a scoped call that
does not use the profile scopeId, and a create call without the parameter
issues an unscoped call although the profile scopeId is set. -/
theorem claim9_counterexample :
    pScoped.projectId = some "P" ∧
    (createWorkflow pScoped cx9Oracle (JVal.obj []) (some "Q")).2 =
      [("POST", "projects/Q/workflows")] ∧
    strStarts "projects/Q/workflows" ("projects/" ++ "P" ++ "/") = false ∧
    (createWorkflow pScoped cx9Oracle (JVal.obj []) none).2 = [("POST", "workflows")] :=
  ⟨rfl, by decide, by decide, by decide⟩

/-- C9 (amended): exactly one immutable profile backs each engine — every
operation is a pure function of the profile fixed at construction, a
fallback call changes no profile field (the fallback is issued with the
same profile), and every scoped call made by the profile-scoped operations
(paginated list, get, update, delete, activate, deactivate) carries the
profile scopeId as its scope segment; `createWorkflow` alone takes its
scope from an explicit per-call parameter and reads nothing from the
profile. -/
theorem claim9_profile_scoping :
    ∀ (p : Profile) (pid : String), p.projectId = some pid → pid ≠ "" →
    ∀ (tr : Oracle) (id : String) (wf : JVal) (a : Option Bool) (c n : Option String),
    (∀ call ∈ (listWorkflowsPaginated p tr a c n).2,
      strStarts call.2 "projects/" = true →
      strStarts call.2 ("projects/" ++ pid ++ "/") = true) ∧
    (∀ call ∈ (getWorkflow p tr id).2,
      strStarts call.2 "projects/" = true →
      strStarts call.2 ("projects/" ++ pid ++ "/") = true) ∧
    (∀ call ∈ (updateWorkflow p tr id wf).2,
      strStarts call.2 "projects/" = true →
      strStarts call.2 ("projects/" ++ pid ++ "/") = true) ∧
    (∀ call ∈ (deleteWorkflow p tr id).2,
      strStarts call.2 "projects/" = true →
      strStarts call.2 ("projects/" ++ pid ++ "/") = true) ∧
    (∀ call ∈ (activateWorkflow p tr id).2,
      strStarts call.2 "projects/" = true →
      strStarts call.2 ("projects/" ++ pid ++ "/") = true) ∧
    (∀ call ∈ (deactivateWorkflow p tr id).2,
      strStarts call.2 "projects/" = true →
      strStarts call.2 ("projects/" ++ pid ++ "/") = true) ∧
    (∀ (q : Profile) (arg : Option String),
      createWorkflow p tr wf arg = createWorkflow q tr wf arg) := by
  intro p pid hp hne tr id wf a c n
  have hbne : (pid != "") = true := by
    simp only [bne_iff_ne, ne_eq]
    exact hne
  refine ⟨?_, ?_, ?_, ?_, ?_, ?_, fun q arg => rfl⟩
  · intro call hc hstart
    cases h1 : tr "GET" ("projects/" ++ pid ++ "/workflows" ++ wfQs a c n) none with
    | ok v =>
      simp [listWorkflowsPaginated, hp, truthy, hbne, h1] at hc
      subst hc
      exact strStartsProj4 pid "/workflows" (wfQs a c n) rfl
    | error e1 =>
      by_cases h4 : contains404 e1 = true
      · cases h2 : tr "GET" ("workflows" ++ wfQs a c n) none <;>
          · simp [listWorkflowsPaginated, hp, truthy, hbne, h1, h2, h4] at hc
            rcases hc with rfl | rfl
            · exact strStartsProj4 pid "/workflows" (wfQs a c n) rfl
            · rw [strStartsW1] at hstart
              simp at hstart
      · simp only [Bool.not_eq_true] at h4
        simp [listWorkflowsPaginated, hp, truthy, hbne, h1, h4] at hc
        subst hc
        exact strStartsProj4 pid "/workflows" (wfQs a c n) rfl
  · intro call hc hstart
    cases h1 : tr "GET" ("projects/" ++ pid ++ "/workflows/" ++ id) none with
    | ok v =>
      simp [getWorkflow, hp, truthy, hbne, h1] at hc
      subst hc
      exact strStartsProj4 pid "/workflows/" id rfl
    | error e1 =>
      by_cases h4 : containsNotFound e1 = true
      · simp [getWorkflow, hp, truthy, hbne, h1, h4] at hc
        rcases hc with rfl | rfl
        · exact strStartsProj4 pid "/workflows/" id rfl
        · rw [strStartsW2] at hstart
          simp at hstart
      · simp only [Bool.not_eq_true] at h4
        simp [getWorkflow, hp, truthy, hbne, h1, h4] at hc
        subst hc
        exact strStartsProj4 pid "/workflows/" id rfl
  · intro call hc hstart
    cases h1 : tr "PUT" ("projects/" ++ pid ++ "/workflows/" ++ id) (some wf) with
    | ok v =>
      simp [updateWorkflow, hp, truthy, hbne, h1] at hc
      subst hc
      exact strStartsProj4 pid "/workflows/" id rfl
    | error e1 =>
      by_cases h4 : containsNotFound e1 = true
      · simp [updateWorkflow, hp, truthy, hbne, h1, h4] at hc
        rcases hc with rfl | rfl
        · exact strStartsProj4 pid "/workflows/" id rfl
        · rw [strStartsW2] at hstart
          simp at hstart
      · simp only [Bool.not_eq_true] at h4
        simp [updateWorkflow, hp, truthy, hbne, h1, h4] at hc
        subst hc
        exact strStartsProj4 pid "/workflows/" id rfl
  · intro call hc hstart
    cases h1 : tr "DELETE" ("projects/" ++ pid ++ "/workflows/" ++ id) none with
    | ok v =>
      simp [deleteWorkflow, hp, truthy, hbne, h1] at hc
      subst hc
      exact strStartsProj4 pid "/workflows/" id rfl
    | error e1 =>
      by_cases h4 : containsNotFound e1 = true
      · cases h2 : tr "DELETE" ("workflows/" ++ id) none <;>
          · simp [deleteWorkflow, hp, truthy, hbne, h1, h2, h4] at hc
            rcases hc with rfl | rfl
            · exact strStartsProj4 pid "/workflows/" id rfl
            · rw [strStartsW2] at hstart
              simp at hstart
      · simp only [Bool.not_eq_true] at h4
        simp [deleteWorkflow, hp, truthy, hbne, h1, h4] at hc
        subst hc
        exact strStartsProj4 pid "/workflows/" id rfl
  · intro call hc hstart
    cases h1 : tr "POST" ("projects/" ++ pid ++ "/workflows/" ++ id ++ "/activate")
        (some (JVal.obj [])) with
    | ok v =>
      simp [activateWorkflow, hp, truthy, hbne, h1] at hc
      subst hc
      exact strStartsProj5 pid "/workflows/" id "/activate" rfl
    | error e1 =>
      by_cases h4 : containsNotFound e1 = true
      · cases h2 : tr "POST" ("workflows/" ++ id ++ "/activate") (some (JVal.obj [])) <;>
          · simp [activateWorkflow, hp, truthy, hbne, h1, h2, h4] at hc
            rcases hc with rfl | rfl
            · exact strStartsProj5 pid "/workflows/" id "/activate" rfl
            · rw [strStartsW3] at hstart
              simp at hstart
      · simp only [Bool.not_eq_true] at h4
        simp [activateWorkflow, hp, truthy, hbne, h1, h4] at hc
        subst hc
        exact strStartsProj5 pid "/workflows/" id "/activate" rfl
  · intro call hc hstart
    cases h1 : tr "POST" ("projects/" ++ pid ++ "/workflows/" ++ id ++ "/deactivate")
        (some (JVal.obj [])) with
    | ok v =>
      simp [deactivateWorkflow, hp, truthy, hbne, h1] at hc
      subst hc
      exact strStartsProj5 pid "/workflows/" id "/deactivate" rfl
    | error e1 =>
      by_cases h4 : containsNotFound e1 = true
      · cases h2 : tr "POST" ("workflows/" ++ id ++ "/deactivate") (some (JVal.obj [])) <;>
          · simp [deactivateWorkflow, hp, truthy, hbne, h1, h2, h4] at hc
            rcases hc with rfl | rfl
            · exact strStartsProj5 pid "/workflows/" id "/deactivate" rfl
            · rw [strStartsW3] at hstart
              simp at hstart
      · simp only [Bool.not_eq_true] at h4
        simp [deactivateWorkflow, hp, truthy, hbne, h1, h4] at hc
        subst hc
        exact strStartsProj5 pid "/workflows/" id "/deactivate" rfl

/-- C9 witness: the get-workflow conjunct applied to the scoped profile
and a succeeding oracle: the one scoped call carries the profile
scopeId. -/
theorem claim9_witness :
    strStarts (("GET", "projects/" ++ "P" ++ "/workflows/" ++ "w1") : Call).2
      ("projects/" ++ "P" ++ "/") = true :=
  ((claim9_profile_scoping pScoped "P" rfl (by decide) cx9Oracle "w1"
    (JVal.obj []) none none none).2.1) ("GET", "projects/" ++ "P" ++ "/workflows/" ++ "w1")
    (by decide) (by decide)

end N8nCli
